import Mathlib

/-!
Shallow embedding of SpotifyInfoBot (src/main.py): the work loop that polls
for new submissions, deduplicates them against an in-memory cache and a
sqlite table, extracts a Spotify playlist id from the submission URL,
fetches the playlist with pagination, aggregates duration/popularity, and
replies with a formatted summary.
-/

namespace SpotifyInfoBot

/-- A Spotify track as used by the code: duration_ms, popularity, artist
names, display name and external URL (main.py lines 190-226). -/
structure TrackInfo where
  duration_ms : Nat
  popularity : Nat
  artists : List String
  name : String
  url : String
deriving DecidableEq, Repr

/-- A playlist item: the "track" field may be null (removed/unavailable
track), modelled as an `Option`. -/
abbrev Item := Option TrackInfo

/-- The playlist object returned by `spotify.playlist` (fields the code
reads): name, owner display name and URL, follower count, tracks.total and
the first page of tracks.items. -/
structure Playlist where
  name : String
  ownerName : String
  ownerUrl : String
  followers : Nat
  total : Nat
  items : List Item
deriving DecidableEq, Repr

/-- A Reddit submission as the code reads it: id, created_utc (epoch
seconds, already an integer after Python's int conversion), the URL's host
and path segments (furl parse), plus raw url/permalink strings. -/
structure Submission where
  id : String
  created_utc : Int
  host : String
  segments : List String
  url : String
  permalink : String
deriving DecidableEq, Repr

/-! Retry with backoff (main.py lines 67-88; the same pattern is repeated
at lines 133-154, 158-182 and 228-252): after a failed first attempt the
loop sleeps `sleep_time` (initially 2), doubles `sleep_time` while it is
below 32, reattempts, and repeats until an attempt succeeds. We model the
remote call as an attempt-indexed oracle `f : Nat → Option α` (attempt 0 is
the unconditional first attempt) and bound the unfolding with fuel; the
returned list records the sleep durations performed, in order. -/

/-- Backoff update performed after each sleep: `if sleep_time < 32:
sleep_time *= 2` (main.py lines 79-80). -/
def nextSleep (s : Nat) : Nat := if s < 32 then s * 2 else s

/-- The `while retry` loop (main.py lines 74-88): sleep `s`, double the
sleep time (capped), then reattempt; on failure repeat. Attempt `k` is the
k-th call of the underlying operation. Returns the sleeps performed and the
successful result, or `none` if the fuel ran out before any success. -/
def retryAux (f : Nat → Option α) : Nat → Nat → Nat → Option (List Nat × α)
  | _, _, 0 => none
  | s, k, fuel + 1 =>
    match f k with
    | some a => some ([s], a)
    | none => (retryAux f (nextSleep s) (k + 1) fuel).map (fun r => (s :: r.1, r.2))

/-- A wrapped network call (main.py lines 65-88): unconditional first
attempt; on failure enter the retry loop with `sleep_time = 2` and
`attempt_count = 1`. -/
def retryCall (f : Nat → Option α) (fuel : Nat) : Option (List Nat × α) :=
  match f 0 with
  | some a => some ([], a)
  | none => retryAux f 2 1 fuel

/-- The sleep performed before reattempt `k` (k ≥ 1): 2 doubled k-1 times,
capped at 32. -/
def sleepAt (k : Nat) : Nat := min 32 (2 ^ k)

/-! URL / identifier extraction (main.py lines 104-122). -/

/-- Python's `str.lower()` on the ASCII path segments, written over the
character list so that it evaluates in the kernel. -/
def lowerStr (s : String) : String := String.mk (s.data.map Char.toLower)

/-- Result of classifying a submission URL. -/
inductive UrlResult where
  | notPlaylistLink
  | noId
  | pid (id : String)
deriving DecidableEq, Repr

/-- Playlist-id extraction from the parsed URL (main.py lines 104-122):
reject hosts other than open.spotify.com; if the first path segment
lowercases to "playlist" take the second segment; if it lowercases to
"user" take the fourth segment; otherwise no playlist id. `none` models an
uncaught IndexError when a required segment is absent. -/
def extractPlaylistId (host : String) (segments : List String) : Option UrlResult :=
  if host ≠ "open.spotify.com" then some .notPlaylistLink
  else
    match segments.get? 0 with
    | none => none
    | some s0 =>
      if lowerStr s0 = "playlist" then (segments.get? 1).map .pid
      else if lowerStr s0 = "user" then (segments.get? 3).map .pid
      else some .noId

/-! Aggregation and rendering (main.py lines 189-226). -/

/-- Total playlist length in milliseconds (main.py lines 190-192): sum of
duration_ms over items whose track is not null. -/
def totalMs (items : List Item) : Nat :=
  ((items.filterMap id).map (fun t => t.duration_ms)).sum

/-- Whole hours of a millisecond duration (main.py line 194). -/
def hoursOf (ms : Nat) : Nat := ms / 3600000

/-- Remainder minutes of a millisecond duration (main.py line 195). -/
def minutesOf (ms : Nat) : Nat := (ms / 60000) % 60

/-- Sort key used for ranking (main.py line 200): the track's popularity,
or 0 when the track is null. -/
def popKey : Item → Nat
  | some t => t.popularity
  | none => 0

/-- Ranking of the playlist items by popularity descending (main.py lines
198-202): Python's `sorted(..., reverse=True)` is a stable descending
sort, modelled as a stable insertion sort with the descending relation. -/
def rankTracks (items : List Item) : List Item :=
  items.insertionSort (fun a b => popKey b ≤ popKey a)

/-- Artist-list grammar (main.py lines 215-222): one artist bare, two
joined with " and ", otherwise all but the last two joined with ", " onto
the last two joined with ", and ". -/
def formatArtists (artists : List String) : String :=
  if artists.length = 1 then artists.headI
  else if artists.length = 2 then artists.headI ++ " and " ++ artists.getD 1 ""
  else
    String.intercalate ", "
      (artists.take (artists.length - 2) ++
        [String.intercalate ", and " (artists.drop (artists.length - 2))])

/-- Thousands grouping on a reversed digit list: a comma after every three
digits (helper for Python's format spec with a comma). -/
def chunk3 : List Char → List Char
  | a :: b :: c :: d :: rest => a :: b :: c :: ',' :: chunk3 (d :: rest)
  | l => l

/-- Follower-count rendering with thousands separators (main.py line 211). -/
def formatThousands (n : Nat) : String :=
  String.mk ((chunk3 (Nat.repr n).toList.reverse).reverse)

/-- One "* [artists - name](url)" line of the top-tracks list (main.py
lines 214-226). A null track makes Python dereference `None["artists"]`,
an uncaught TypeError, modelled as `none`. -/
def renderTrackLine (it : Item) : Option String :=
  match it with
  | none => none
  | some t =>
    some ("* [" ++ formatArtists t.artists ++ " - " ++ t.name ++ "](" ++ t.url ++ ")\n")

/-- The reply text built at main.py lines 204-226 from the playlist, the
accumulated items and the submission URL; `none` models the uncaught
exception when a null track is among the top 5 ranked items. -/
def renderResponse (p : Playlist) (items : List Item) (subUrl : String) : Option String :=
  let ms := totalMs items
  let header :=
    "Playlist name: [" ++ p.name ++ "](" ++ subUrl ++ ")\n\n" ++
    "Playlist author: [" ++ p.ownerName ++ "](" ++ p.ownerUrl ++ ")\n\n" ++
    "Number of tracks: " ++ Nat.repr items.length ++ "\n\n" ++
    "Length: " ++ Nat.repr (hoursOf ms) ++ " hr " ++ Nat.repr (minutesOf ms) ++ " min\n\n" ++
    "Followers: " ++ formatThousands p.followers ++ "\n\n" ++
    "Top tracks:\n\n"
  (((rankTracks items).take 5).mapM renderTrackLine).map
    (fun lines => header ++ String.join lines)

/-! The durable store (sqlite table `submissions`). The table is a list of
(id, timestamp) rows; `none` for the whole table means the table does not
exist, in which case any statement over it raises OperationalError. -/

/-- State of the sqlite `submissions` table: `none` when the table is
absent from the database file. -/
abbrev SubTable := Option (List (String × Int))

/-- The lookup `select * from submissions where id=?` followed by
`fetchone()` (main.py lines 99-100): `some true/false` for a present/absent
row, `none` when the table itself does not exist. -/
def dbHasId (t : SubTable) (id : String) : Option Bool :=
  t.map (fun rows => rows.any (fun r => r.1 == id))

/-- The statement `insert into submissions values(?,?)` (main.py lines
256-258): appends a row, `none` when the table does not exist. -/
def dbInsertId (t : SubTable) (id : String) (ts : Int) : Option (List (String × Int)) :=
  t.map (fun rows => rows ++ [(id, ts)])

/-- Startup database initialization as the code performs it (main.py lines
33-35): `sqlite3.connect("data.db")` creates the database file if absent
but issues no CREATE TABLE statement, so whether the `submissions` table
exists is unchanged by startup. -/
def startupInitDB (t : SubTable) : SubTable := t

/-! Cache eviction (main.py lines 261-262): `while len(submission_ids) >
125: submission_ids.pop(0)`. Each iteration pops the front element; the
list length bounds the number of iterations, so running the loop with the
length as fuel is exact. -/

/-- The eviction while-loop with explicit fuel: pop the front element while
the length exceeds 125. -/
def evictGo : Nat → List String → List String
  | 0, l => l
  | fuel + 1, l => if l.length > 125 then evictGo fuel l.tail else l

/-- Eviction as run by the code: the loop terminates after at most
`l.length` pops. -/
def evictOld (l : List String) : List String := evictGo l.length l

/-! The per-submission loop body (main.py lines 90-264). -/

/-- Terminal outcome of processing one fetched submission. -/
inductive StepOutcome where
  | skipInCache
  | skipStale
  | skipInStore
  | skipBadHost
  | skipNoId
  | skipNotFound
  | replied
deriving DecidableEq, Repr

/-- Mutable state of the work loop: the in-memory submission_ids cache,
the sqlite submissions table, and the replies posted so far. -/
structure BotState where
  submission_ids : List String
  table : SubTable
  replies : List (String × String)
deriving DecidableEq, Repr

/-- Outcome of one attempt of `spotify.playlist`: SpotifyException (the
not-found / invalid-id error class), any other exception (transient), or
success. -/
inductive PFAttempt where
  | notFound
  | transient
  | ok (p : Playlist)
deriving DecidableEq, Repr

/-- Environment of one loop body execution: the current utc time, the
attempt-indexed playlist-fetch oracle per playlist id, the page-fetch
oracle (playlist id and offset to returned items), and fuel bounds for the
retry and pagination loops. -/
structure Env where
  now : Int
  fetch : String → Nat → PFAttempt
  page : String → Nat → List Item
  fetchFuel : Nat
  pageFuel : Nat

/-- The retry loop of the playlist fetch (main.py lines 140-154): inside
this loop every exception — SpotifyException included — is caught by the
bare `except Exception` and retried, so only a successful attempt exits. -/
def fetchRetry (f : Nat → PFAttempt) : Nat → Nat → Option (Playlist × Nat)
  | _, 0 => none
  | k, fuel + 1 =>
    match f k with
    | .ok p => some (p, k + 1)
    | _ => fetchRetry f (k + 1) fuel

/-- Result of the playlist-fetch block: skip on a first-attempt
SpotifyException, or the playlist. -/
inductive PFResult where
  | notFoundSkip
  | got (p : Playlist)
deriving DecidableEq, Repr

/-- The playlist-fetch block (main.py lines 127-154). Returns the result
together with the number of times `spotify.playlist` was invoked; a
SpotifyException on the first attempt is not retried, any other first
attempt failure enters the retry loop. -/
def fetchPlaylistCall (f : Nat → PFAttempt) (fuel : Nat) : Option (PFResult × Nat) :=
  match f 0 with
  | .ok p => some (.got p, 1)
  | .notFound => some (.notFoundSkip, 1)
  | .transient => (fetchRetry f 1 fuel).map (fun r => (.got r.1, r.2))

/-- The pagination loop (main.py lines 156-187): while the accumulated
items are fewer than the reported total, fetch a page at the current
offset, append its items, and advance the offset by 100. Returns the
offsets fetched and the final items; `none` when the fuel ran out with the
loop condition still true. -/
def paginate (pf : Nat → List α) (total : Nat) : Nat → List α → Nat → Option (List Nat × List α)
  | fuel, items, offset =>
    if total ≤ items.length then some ([], items)
    else
      match fuel with
      | 0 => none
      | fuel + 1 =>
        (paginate pf total fuel (items ++ pf offset) (offset + 100)).map
          (fun r => (offset :: r.1, r.2))

/-- The body of `for submission in new_submissions` (main.py lines
90-264), as a function of the environment, the loop state and the
submission. Returns the terminal outcome, the new state, and the number of
`spotify.playlist` invocations made; `none` models an uncaught exception
(or exhausted fuel). -/
def handleSubmission (env : Env) (st : BotState) (s : Submission) :
    Option (StepOutcome × BotState × Nat) :=
  if s.id ∈ st.submission_ids then
    some (.skipInCache, st, 0)
  else if s.created_utc < env.now - 900 then
    some (.skipStale, { st with submission_ids := st.submission_ids ++ [s.id] }, 0)
  else
    match dbHasId st.table s.id with
    | none => none
    | some true =>
      some (.skipInStore, { st with submission_ids := st.submission_ids ++ [s.id] }, 0)
    | some false =>
      match extractPlaylistId s.host s.segments with
      | none => none
      | some .notPlaylistLink =>
        some (.skipBadHost, { st with submission_ids := st.submission_ids ++ [s.id] }, 0)
      | some .noId =>
        some (.skipNoId, { st with submission_ids := st.submission_ids ++ [s.id] }, 0)
      | some (.pid pid) =>
        match fetchPlaylistCall (env.fetch pid) env.fetchFuel with
        | none => none
        | some (.notFoundSkip, n) =>
          some (.skipNotFound, { st with submission_ids := st.submission_ids ++ [s.id] }, n)
        | some (.got p, n) =>
          match paginate (env.page pid) p.total env.pageFuel p.items 100 with
          | none => none
          | some (_, allItems) =>
            match renderResponse p allItems s.url with
            | none => none
            | some response =>
              match dbInsertId st.table s.id env.now with
              | none => none
              | some rows =>
                some (.replied,
                  { submission_ids := evictOld (st.submission_ids ++ [s.id]),
                    table := some rows,
                    replies := st.replies ++ [(s.id, response)] }, n)

/-! Theorems about the retry/backoff wrapper. -/

theorem nextSleep_sleepAt (k : Nat) : nextSleep (sleepAt k) = sleepAt (k + 1) := by
  unfold nextSleep sleepAt
  rcases lt_or_le (2 ^ k) 32 with h | h
  · have hk : k < 5 := by
      by_contra hge
      push_neg at hge
      have h32 : (32 : Nat) ≤ 2 ^ k := by
        calc (32 : Nat) = 2 ^ 5 := by norm_num
        _ ≤ 2 ^ k := Nat.pow_le_pow_right (by norm_num) hge
      omega
    have h1 : 2 ^ (k + 1) ≤ 32 := by
      calc 2 ^ (k + 1) ≤ 2 ^ 5 := Nat.pow_le_pow_right (by norm_num) (by omega)
      _ = 32 := by norm_num
    rw [Nat.min_eq_right (le_of_lt h), if_pos h, Nat.min_eq_right h1]
    rw [Nat.pow_succ]
  · rw [Nat.min_eq_left h, if_neg (by omega),
      Nat.min_eq_left (le_trans h (Nat.pow_le_pow_right (by norm_num) (by omega)))]

theorem retryAux_spec (f : Nat → Option α) (v : α) (n : Nat)
    (hsucc : f n = some v) (hfail : ∀ i, i < n → f i = none) :
    ∀ fuel k, 1 ≤ k → k ≤ n → n - k < fuel →
      retryAux f (sleepAt k) k fuel = some ((List.range' k (n + 1 - k)).map sleepAt, v) := by
  intro fuel
  induction fuel with
  | zero => intro k _ _ hlt; omega
  | succ fuel ih =>
    intro k hk1 hkn hlt
    rcases eq_or_lt_of_le hkn with rfl | hkn'
    · unfold retryAux
      rw [hsucc]
      have h1 : k + 1 - k = 1 := by omega
      rw [h1, List.range'_succ]
      rfl
    · unfold retryAux
      rw [hfail k hkn', nextSleep_sleepAt,
        ih (k + 1) (by omega) (by omega) (by omega)]
      have h1 : n + 1 - k = (n + 1 - (k + 1)) + 1 := by omega
      rw [h1, List.range'_succ]
      rfl

/-- C3: for a wrapped network call whose attempts fail until attempt `n`
succeeds (attempt 0 being the unconditional first call), the retry loop
performs exactly the sleeps 2, 4, 8, 16, 32, 32, ... — doubling up to the
32-second cap — before attempts 1..n, terminates with no built-in attempt
bound (the statement holds for every `n`), and returns the value of the
succeeding attempt. -/
theorem retry_backoff (f : Nat → Option α) (n fuel : Nat) (v : α)
    (hfail : ∀ i, i < n → f i = none) (hsucc : f n = some v) (hfuel : n ≤ fuel) :
    retryCall f fuel = some ((List.range n).map (fun i => min 32 (2 ^ (i + 1))), v) := by
  cases n with
  | zero =>
    unfold retryCall
    rw [hsucc]
    rfl
  | succ m =>
    unfold retryCall
    rw [hfail 0 (Nat.succ_pos m)]
    have h2 : sleepAt 1 = 2 := by decide
    have hs := retryAux_spec f v (m + 1) hsucc hfail fuel 1 le_rfl (by omega) (by omega)
    rw [h2] at hs
    rw [hs]
    have h1 : m + 1 + 1 - 1 = m + 1 := by omega
    rw [h1, List.range'_eq_map_range, List.map_map]
    have h3 : sleepAt ∘ (fun x => 1 + x) = fun i => min 32 (2 ^ (i + 1)) := by
      funext i
      simp [sleepAt, Nat.add_comm]
    rw [h3]

/-- Witness for C3: a call failing on attempts 0..5 and succeeding on
attempt 6 sleeps 2, 4, 8, 16, 32, 32 and returns the attempt's value. -/
theorem retry_backoff_witness :
    retryCall (fun i => if i = 6 then some 42 else none) 6
      = some ([2, 4, 8, 16, 32, 32], 42) := by
  have h := retry_backoff (fun i => if i = 6 then some 42 else none) 6 6 42
    (by decide) (by decide) (by decide)
  rw [h]
  rfl

/-! Theorems about eviction and the loop body. -/

set_option maxRecDepth 4000 in
theorem evictGo_spec :
    ∀ (fuel : Nat) (l : List String), l.length - 125 ≤ fuel →
      evictGo fuel l = l.drop (l.length - 125) := by
  intro fuel
  induction fuel with
  | zero =>
    intro l h
    have h0 : l.length - 125 = 0 := by omega
    rw [h0, List.drop_zero]
    rfl
  | succ fuel ih =>
    intro l h
    unfold evictGo
    by_cases h125 : l.length > 125
    · rw [if_pos h125, ih l.tail (by rw [List.length_tail]; omega)]
      rw [List.length_tail, ← List.drop_one, List.drop_drop]
      congr 1
      omega
    · rw [if_neg h125]
      have h0 : l.length - 125 = 0 := by omega
      rw [h0, List.drop_zero]

theorem evictOld_spec (l : List String) : evictOld l = l.drop (l.length - 125) :=
  evictGo_spec l.length l (by omega)

theorem evictOld_length_le (l : List String) : (evictOld l).length ≤ 125 := by
  rw [evictOld_spec, List.length_drop]
  omega

/-- The playlist-fetch block signals a not-found skip only from the first
attempt, so the underlying call was invoked exactly once. -/
theorem fetchPlaylistCall_notFound (f : Nat → PFAttempt) (fuel n : Nat)
    (h : fetchPlaylistCall f fuel = some (.notFoundSkip, n)) : n = 1 := by
  unfold fetchPlaylistCall at h
  cases hf : f 0 <;> rw [hf] at h
  · simp only [Option.some.injEq, Prod.mk.injEq] at h
    exact h.2.symm
  · rw [Option.map_eq_some'] at h
    obtain ⟨a, _, ha⟩ := h
    simp at ha
  · simp at h

set_option maxRecDepth 4000 in
/-- Exhaustive description of the loop body's terminal outcomes: the
in-cache skip leaves the state alone; the stale, in-store, bad-host and
no-id skips append the id to the in-memory cache only; the not-found skip
does the same after exactly one playlist-fetch call; a successful reply
appends the id to the cache (then evicts), inserts the id with the current
time into the durable table, and records the reply. -/
theorem step_spec (env : Env) (st : BotState) (s : Submission)
    (o : StepOutcome) (st' : BotState) (n : Nat)
    (h : handleSubmission env st s = some (o, st', n)) :
    (o = .skipInCache → st' = st ∧ n = 0) ∧
    ((o = .skipStale ∨ o = .skipInStore ∨ o = .skipBadHost ∨ o = .skipNoId) →
      st' = { st with submission_ids := st.submission_ids ++ [s.id] } ∧ n = 0) ∧
    (o = .skipNotFound →
      st' = { st with submission_ids := st.submission_ids ++ [s.id] } ∧ n = 1) ∧
    (o = .replied → ∃ rows resp,
      st.table = some rows ∧
      st' = { submission_ids := evictOld (st.submission_ids ++ [s.id]),
              table := some (rows ++ [(s.id, env.now)]),
              replies := st.replies ++ [(s.id, resp)] }) := by
  unfold handleSubmission at h
  split at h
  · simp only [Option.some.injEq, Prod.mk.injEq] at h
    obtain ⟨rfl, rfl, rfl⟩ := h
    simp
  · split at h
    · simp only [Option.some.injEq, Prod.mk.injEq] at h
      obtain ⟨rfl, rfl, rfl⟩ := h
      simp
    · split at h
      · exact absurd h (by simp)
      · simp only [Option.some.injEq, Prod.mk.injEq] at h
        obtain ⟨rfl, rfl, rfl⟩ := h
        simp
      · split at h
        · exact absurd h (by simp)
        · simp only [Option.some.injEq, Prod.mk.injEq] at h
          obtain ⟨rfl, rfl, rfl⟩ := h
          simp
        · simp only [Option.some.injEq, Prod.mk.injEq] at h
          obtain ⟨rfl, rfl, rfl⟩ := h
          simp
        · split at h
          · exact absurd h (by simp)
          · rename_i n0 heq
            simp only [Option.some.injEq, Prod.mk.injEq] at h
            obtain ⟨rfl, rfl, rfl⟩ := h
            have hn := fetchPlaylistCall_notFound _ _ _ heq
            simp [hn]
          · split at h
            · exact absurd h (by simp)
            · split at h
              · exact absurd h (by simp)
              · split at h
                · exact absurd h (by simp)
                · rename_i rows hins
                  simp only [Option.some.injEq, Prod.mk.injEq] at h
                  obtain ⟨rfl, rfl, rfl⟩ := h
                  refine ⟨by simp, by simp, by simp, fun _ => ?_⟩
                  unfold dbInsertId at hins
                  rw [Option.map_eq_some'] at hins
                  obtain ⟨rows0, htab, hrows⟩ := hins
                  subst hrows
                  exact ⟨rows0, _, htab, rfl⟩

/-! Concrete fixtures used by witnesses and counterexamples. -/

/-- Environment whose playlist fetch succeeds immediately with an empty
playlist. -/
def envReplied : Env := ⟨1000, fun _ _ => .ok ⟨"P", "O", "ou", 10, 0, []⟩, fun _ _ => [], 1, 1⟩

/-- Environment whose playlist fetch raises the not-found error class on
every attempt. -/
def envNF : Env := ⟨1000, fun _ _ => .notFound, fun _ _ => [], 1, 1⟩

/-- A fresh submission carrying a playlist link. -/
def subFresh : Submission := ⟨"s1", 1000, "open.spotify.com", ["playlist", "p1"], "u", "p"⟩

/-- The same submission but created more than 900 seconds before now. -/
def subStale : Submission := ⟨"s1", 0, "open.spotify.com", ["playlist", "p1"], "u", "p"⟩

/-- A submission whose URL host is not the playlist service. -/
def subBadHost : Submission := ⟨"b1", 1000, "evil.com", ["playlist", "x"], "u", "p"⟩

/-- An in-memory cache already holding 125 distinct identifiers. -/
def idsFull : List String := (List.range 125).map Nat.repr

/-- The reply text for the empty playlist of `envReplied`. -/
def respEmpty : String :=
  "Playlist name: [P](u)\n\nPlaylist author: [O](ou)\n\nNumber of tracks: 0\n\nLength: 0 hr 0 min\n\nFollowers: 10\n\nTop tracks:\n\n"

/-- Empty loop state over an existing empty table. -/
def stEmpty : BotState := ⟨[], some [], []⟩

/-- Loop state whose cache is at capacity. -/
def stFull : BotState := ⟨idsFull, some [], []⟩

/-- The state after `envReplied` successfully replies to `subFresh` from
`stFull`: the oldest cached id was evicted, the id was inserted durably,
and the reply was recorded. -/
def stFullReplied : BotState :=
  ⟨idsFull.tail ++ ["s1"], some [("s1", 1000)], [("s1", respEmpty)]⟩

/-! Claim C1. -/

/-- C1 is false on the code at this input: a stale post reaches the
terminal outcome skipStale, its identifier is appended to the in-memory
cache, but the durable store is left unchanged and still does not contain
the identifier — no insert-with-timestamp happened for this terminal
outcome. -/
theorem handled_record_counterexample :
    handleSubmission envNF stEmpty subStale = some (.skipStale, ⟨["s1"], some [], []⟩, 0) ∧
    dbHasId (some []) "s1" = some false :=
  ⟨by decide, by decide⟩

/-- C1 (amended): for every fetched post reaching one of the terminal
outcomes stale skip, non-playlist-URL skip, unrecognized-path skip or
not-found skip, the identifier is appended to the in-memory cache exactly
once and the durable store is left untouched; only the successful-reply
outcome additionally inserts the identifier into the durable store with
the current timestamp (exactly once). -/
theorem handled_record_amended (env : Env) (st : BotState) (s : Submission)
    (o : StepOutcome) (st' : BotState) (n : Nat)
    (h : handleSubmission env st s = some (o, st', n)) :
    ((o = .skipStale ∨ o = .skipBadHost ∨ o = .skipNoId ∨ o = .skipNotFound) →
      st'.submission_ids = st.submission_ids ++ [s.id] ∧ st'.table = st.table) ∧
    (o = .replied →
      st'.submission_ids = evictOld (st.submission_ids ++ [s.id]) ∧
      ∃ rows, st.table = some rows ∧ st'.table = some (rows ++ [(s.id, env.now)])) := by
  have hs := step_spec env st s o st' n h
  refine ⟨?_, ?_⟩
  · intro ho
    have h1 : st' = { st with submission_ids := st.submission_ids ++ [s.id] } := by
      rcases ho with rfl | rfl | rfl | rfl
      · exact (hs.2.1 (Or.inl rfl)).1
      · exact (hs.2.1 (Or.inr (Or.inr (Or.inl rfl)))).1
      · exact (hs.2.1 (Or.inr (Or.inr (Or.inr rfl)))).1
      · exact (hs.2.2.1 rfl).1
    rw [h1]
    exact ⟨rfl, rfl⟩
  · intro ho
    obtain ⟨rows, resp, htab, hst⟩ := hs.2.2.2 ho
    rw [hst]
    exact ⟨rfl, rows, htab, rfl⟩

/-- Witness for C1 (amended), at a bad-host skip: the cache gains exactly
the id and the table is unchanged. -/
theorem handled_record_amended_witness :
    (⟨["b1"], some [], []⟩ : BotState).submission_ids
        = stEmpty.submission_ids ++ [subBadHost.id] ∧
    (⟨["b1"], some [], []⟩ : BotState).table = stEmpty.table :=
  (handled_record_amended envNF stEmpty subBadHost .skipBadHost ⟨["b1"], some [], []⟩ 0
    (by decide)).1 (Or.inr (Or.inl rfl))

/-! Claim C2. -/

set_option maxRecDepth 8000 in
/-- C2 is false on the code at this input: with the cache already holding
125 identifiers, a stale post's skip branch appends a 126th identifier and
performs no eviction, so the cache exceeds 125 entries inside the loop. -/
theorem cache_bound_counterexample :
    (handleSubmission envNF stFull subStale).map
        (fun r => (r.1, r.2.1.submission_ids.length))
      = some (.skipStale, 126) ∧ 125 < 126 :=
  ⟨by decide, by decide⟩

/-- C2 (amended): after the insertion-plus-eviction step of the
successful-reply path the cache holds at most 125 identifiers, and when it
held 125 before, the oldest (front) identifier is the one evicted (FIFO);
the appends performed on skip branches are not followed by any eviction,
so the cache can exceed 125 entries there. -/
theorem cache_bound_amended (env : Env) (st : BotState) (s : Submission)
    (st' : BotState) (n : Nat)
    (h : handleSubmission env st s = some (.replied, st', n)) :
    st'.submission_ids.length ≤ 125 ∧
    (st.submission_ids.length = 125 →
      st'.submission_ids = st.submission_ids.tail ++ [s.id]) := by
  obtain ⟨rows, resp, htab, hst⟩ := (step_spec env st s .replied st' n h).2.2.2 rfl
  rw [hst]
  refine ⟨evictOld_length_le _, fun h125 => ?_⟩
  show evictOld (st.submission_ids ++ [s.id]) = st.submission_ids.tail ++ [s.id]
  rw [evictOld_spec, List.length_append, h125]
  cases hid : st.submission_ids with
  | nil => rw [hid] at h125; simp at h125
  | cons a l => simp

set_option maxRecDepth 8000 in
/-- Witness for C2 (amended): replying from a full cache of 125 ids keeps
the cache at 125 entries and evicts exactly the oldest id. -/
theorem cache_bound_amended_witness :
    stFullReplied.submission_ids.length ≤ 125 ∧
    (stFull.submission_ids.length = 125 →
      stFullReplied.submission_ids = stFull.submission_ids.tail ++ [subFresh.id]) :=
  cache_bound_amended envReplied stFull subFresh stFullReplied 1 (by decide)

/-! Claim C4. -/

/-- C4: when the playlist fetch fails with the not-found / invalid-id
error class on its (unconditional) first attempt, no retry happens — the
underlying fetch was invoked exactly once (the count 1 in the result) —
and the post is marked handled by appending its id to the cache, with no
reply recorded and the durable store untouched. -/
theorem notfound_no_retry (env : Env) (st : BotState) (s : Submission) (pid : String)
    (h1 : s.id ∉ st.submission_ids)
    (h2 : ¬ s.created_utc < env.now - 900)
    (h3 : dbHasId st.table s.id = some false)
    (h4 : extractPlaylistId s.host s.segments = some (.pid pid))
    (h5 : env.fetch pid 0 = .notFound) :
    handleSubmission env st s =
      some (.skipNotFound, { st with submission_ids := st.submission_ids ++ [s.id] }, 1) := by
  unfold handleSubmission fetchPlaylistCall
  simp only [if_neg h1, if_neg h2, h3, h4, h5]

/-- Witness for C4 at a concrete not-found fetch. -/
theorem notfound_no_retry_witness :
    handleSubmission envNF stEmpty subFresh =
      some (.skipNotFound, ⟨["s1"], some [], []⟩, 1) :=
  (notfound_no_retry envNF stEmpty subFresh "p1"
    (by decide) (by decide) (by decide) (by decide) (by decide)).trans (by decide)

/-! Claim C5. -/

/-- C5: the dedup gate evaluates its rules in order with short-circuiting:
an id already in the cache is skipped (state unchanged); otherwise a post
older than 900 seconds is skipped and recorded into the cache with zero
playlist-fetch calls performed; otherwise an id present in the durable
store is skipped and recorded into the cache; otherwise the post proceeds
to processing (whatever terminal outcome results, it is none of the three
gate skips). -/
theorem dedup_gate (env : Env) (st : BotState) (s : Submission) :
    (s.id ∈ st.submission_ids →
      handleSubmission env st s = some (.skipInCache, st, 0)) ∧
    (s.id ∉ st.submission_ids → s.created_utc < env.now - 900 →
      handleSubmission env st s =
        some (.skipStale, { st with submission_ids := st.submission_ids ++ [s.id] }, 0)) ∧
    (s.id ∉ st.submission_ids → ¬ s.created_utc < env.now - 900 →
      dbHasId st.table s.id = some true →
      handleSubmission env st s =
        some (.skipInStore, { st with submission_ids := st.submission_ids ++ [s.id] }, 0)) ∧
    (s.id ∉ st.submission_ids → ¬ s.created_utc < env.now - 900 →
      dbHasId st.table s.id = some false →
      ∀ o st' n, handleSubmission env st s = some (o, st', n) →
        o ≠ .skipInCache ∧ o ≠ .skipStale ∧ o ≠ .skipInStore) := by
  refine ⟨?_, ?_, ?_, ?_⟩
  · intro h1
    unfold handleSubmission
    rw [if_pos h1]
  · intro h1 h2
    unfold handleSubmission
    rw [if_neg h1, if_pos h2]
  · intro h1 h2 h3
    unfold handleSubmission
    rw [if_neg h1, if_neg h2, h3]
  · intro h1 h2 h3 o st' n h
    unfold handleSubmission at h
    rw [if_neg h1, if_neg h2] at h
    split at h
    · rename_i heq
      rw [h3] at heq
      cases heq
    · rename_i heq
      rw [h3] at heq
      cases heq
    · split at h
      · exact absurd h (by simp)
      · simp only [Option.some.injEq, Prod.mk.injEq] at h
        obtain ⟨rfl, rfl, rfl⟩ := h
        exact ⟨by decide, by decide, by decide⟩
      · simp only [Option.some.injEq, Prod.mk.injEq] at h
        obtain ⟨rfl, rfl, rfl⟩ := h
        exact ⟨by decide, by decide, by decide⟩
      · split at h
        · exact absurd h (by simp)
        · simp only [Option.some.injEq, Prod.mk.injEq] at h
          obtain ⟨rfl, rfl, rfl⟩ := h
          exact ⟨by decide, by decide, by decide⟩
        · split at h
          · exact absurd h (by simp)
          · split at h
            · exact absurd h (by simp)
            · split at h
              · exact absurd h (by simp)
              · simp only [Option.some.injEq, Prod.mk.injEq] at h
                obtain ⟨rfl, rfl, rfl⟩ := h
                exact ⟨by decide, by decide, by decide⟩

/-- Witness for C5, instantiating the stale rule: the stale post is
recorded into the cache with zero playlist-fetch calls. -/
theorem dedup_gate_witness :
    handleSubmission envNF stEmpty subStale = some (.skipStale, ⟨["s1"], some [], []⟩, 0) :=
  ((dedup_gate envNF stEmpty subStale).2.1 (by decide) (by decide)).trans (by decide)

/-! Claim C6. -/

/-- C6 is false on the code at this input: the path
/user/alice/album/p123 is not of the shape /user/username/playlist/id, yet
the extractor returns the 4th segment as an identifier instead of "no
identifier found" — the code never inspects the third segment. -/
theorem extract_other_shape_counterexample :
    extractPlaylistId "open.spotify.com" ["user", "alice", "album", "p123"]
      = some (.pid "p123") ∧
    some (UrlResult.pid "p123") ≠ some UrlResult.noId :=
  ⟨by decide, by decide⟩

/-- C6 (amended): only the playlist service's host is accepted (any other
host is a not-a-playlist-link skip); /playlist/id yields id;
/user/username/x/id yields the 4th segment for every third segment x, not
only "playlist"; and a path whose first segment lowercases to neither
"playlist" nor "user" yields no identifier. -/
theorem extract_amended :
    (∀ host segs, host ≠ "open.spotify.com" →
      extractPlaylistId host segs = some .notPlaylistLink) ∧
    (∀ id, extractPlaylistId "open.spotify.com" ["playlist", id] = some (.pid id)) ∧
    (∀ u x id, extractPlaylistId "open.spotify.com" ["user", u, x, id] = some (.pid id)) ∧
    (∀ s0 rest, lowerStr s0 ≠ "playlist" → lowerStr s0 ≠ "user" →
      extractPlaylistId "open.spotify.com" (s0 :: rest) = some .noId) := by
  refine ⟨?_, ?_, ?_, ?_⟩
  · intro host segs h
    unfold extractPlaylistId
    rw [if_pos h]
  · intro id
    unfold extractPlaylistId
    rw [if_neg (by decide)]
    have hpl : lowerStr "playlist" = "playlist" := by decide
    simp [hpl]
  · intro u x id
    unfold extractPlaylistId
    rw [if_neg (by decide)]
    have hus : lowerStr "user" = "user" := by decide
    have hnp : ¬ lowerStr "user" = "playlist" := by decide
    simp [hus, hnp]
  · intro s0 rest hp hu
    unfold extractPlaylistId
    rw [if_neg (by decide)]
    simp [hp, hu]

/-- Witness for C6 (amended) at the four shapes. -/
theorem extract_amended_witness :
    extractPlaylistId "evil.com" ["playlist", "x"] = some .notPlaylistLink ∧
    extractPlaylistId "open.spotify.com" ["playlist", "abc"] = some (.pid "abc") ∧
    extractPlaylistId "open.spotify.com" ["user", "u", "playlist", "xyz"] = some (.pid "xyz") ∧
    extractPlaylistId "open.spotify.com" ["album", "z"] = some .noId :=
  ⟨extract_amended.1 "evil.com" ["playlist", "x"] (by decide),
   extract_amended.2.1 "abc",
   extract_amended.2.2.1 "u" "playlist" "xyz",
   extract_amended.2.2.2 "album" ["z"] (by decide) (by decide)⟩

/-! Claim C7. -/

/-- A playlist whose single item has a null track. -/
def plNull : Playlist := ⟨"P", "O", "ou", 10, 1, [none]⟩

/-- Environment whose playlist fetch succeeds with `plNull`. -/
def envNull : Env := ⟨1000, fun _ _ => .ok plNull, fun _ _ => [], 1, 1⟩

/-- C7: null tracks are indeed skipped in the duration aggregation and
sort as popularity 0 in the ranking, but the claim's last part is false —
rendering the reply dereferences the null track's fields, so when a null
track falls within the top 5 (here, a 1-item playlist whose track is
null), processing raises an uncaught exception instead of completing. -/
theorem nulltrack_handling :
    totalMs [none, some ⟨120000, 5, ["X"], "T", "u"⟩, some ⟨180000, 9, ["Y"], "S", "v"⟩]
      = 300000 ∧
    hoursOf 300000 = 0 ∧ minutesOf 300000 = 5 ∧
    rankTracks [some ⟨1, 10, ["X"], "T", "u"⟩, none, some ⟨1, 90, ["Y"], "S", "v"⟩]
      = [some ⟨1, 90, ["Y"], "S", "v"⟩, some ⟨1, 10, ["X"], "T", "u"⟩, none] ∧
    renderTrackLine none = none ∧
    handleSubmission envNull stEmpty subFresh = none :=
  ⟨by decide, by decide, by decide, by decide, by decide, by decide⟩

/-! Claim C8. -/

/-- C8 is false on the code at this input: for three artists A, B, C the
code joins ["A"] and "B, and C" with ", ", producing "A, B, and C", not
the claimed "A, and B, and C". -/
theorem artist_grammar_counterexample :
    formatArtists ["A", "B", "C"] = "A, B, and C" ∧
    ("A, B, and C" : String) ≠ "A, and B, and C" :=
  ⟨by decide, by decide⟩

/-- C8 (amended): the artist-list formatter produces the bare name for one
artist, "A and B" for two, and "A, B, and C" for three (all-but-last-two
joined with ", ", then the final pair joined with ", and "). -/
theorem artist_grammar_amended :
    formatArtists ["A"] = "A" ∧
    formatArtists ["A", "B"] = "A and B" ∧
    formatArtists ["A", "B", "C"] = "A, B, and C" :=
  ⟨by decide, by decide, by decide⟩

/-! Claim C9. -/

/-- C9: the startup initialization performed by the code leaves the
submissions table exactly as it was — `sqlite3.connect` creates only the
database file, never the table — so on a fresh database (table absent) the
first in-loop key-existence check fails and the loop body dies with an
uncaught OperationalError instead of succeeding. -/
theorem fresh_db_crash :
    startupInitDB none = none ∧
    dbHasId (startupInitDB none) "s1" = none ∧
    handleSubmission envNF ⟨[], startupInitDB none, []⟩ subFresh = none :=
  ⟨rfl, rfl, by decide⟩

/-! Claim C10. -/

theorem paginate_done (pf : Nat → List α) (total fuel : Nat) (items : List α) (off : Nat)
    (h : total ≤ items.length) : paginate pf total fuel items off = some ([], items) := by
  unfold paginate
  rw [if_pos h]

theorem paginate_step (pf : Nat → List α) (total fuel : Nat) (items : List α) (off : Nat)
    (h : items.length < total) :
    paginate pf total (fuel + 1) items off
      = (paginate pf total fuel (items ++ pf off) (off + 100)).map
          (fun r => (off :: r.1, r.2)) := by
  conv_lhs => unfold paginate
  rw [if_neg (by omega)]

/-- C10: for a playlist reporting 250 total tracks whose initial fetch
returned the first 100 items, with each page fetch returning up to 100
items from the requested offset, the pagination loop performs exactly two
further page fetches, at offsets 100 and 200, and terminates with all 250
tracks accumulated. -/
theorem pagination_250 (tracks : List Item) (h : tracks.length = 250) (k : Nat) :
    paginate (fun o => (tracks.drop o).take 100) 250 (k + 2) (tracks.take 100) 100
      = some ([100, 200], tracks) := by
  have l1 : (tracks.take 100).length = 100 := by
    rw [List.length_take, h]
    omega
  rw [show k + 2 = (k + 1) + 1 from rfl,
    paginate_step _ _ _ _ _ (by rw [l1]; omega)]
  rw [show tracks.take 100 ++ (tracks.drop 100).take 100 = tracks.take 200 from by
    rw [← List.take_add]]
  have l2 : (tracks.take 200).length = 200 := by
    rw [List.length_take, h]
    omega
  rw [paginate_step _ _ _ _ _ (by rw [l2]; omega)]
  have e3 : (tracks.drop 200).take 100 = tracks.drop 200 :=
    List.take_of_length_le (by rw [List.length_drop, h]; omega)
  rw [show tracks.take 200 ++ (tracks.drop 200).take 100 = tracks from by
    rw [e3, List.take_append_drop]]
  rw [paginate_done _ _ _ _ _ (by rw [h])]
  rfl

set_option maxRecDepth 4000 in
/-- Witness for C10 on a concrete 250-track playlist. -/
theorem pagination_250_witness :
    paginate (fun o => ((List.replicate 250 (none : Item)).drop o).take 100) 250 2
        ((List.replicate 250 (none : Item)).take 100) 100
      = some ([100, 200], List.replicate 250 (none : Item)) :=
  pagination_250 (List.replicate 250 (none : Item)) (by simp) 0

end SpotifyInfoBot
